import Mathlib

/-!
Verification of the AI fashion stylist client against its specification.

The development shallowly embeds the reducer-driven workflow state machine
(src/unnamed/part_000), the gateway helpers of src/services/geminiService.ts
(second variant in that file, which the application imports), and the resize
computation of the upload worker (src/components/ImageUploader.tsx).
Stateful browser facilities (session storage, wall clock, the network, the
throttle timer) are passed explicitly as values.
-/

deriving instance DecidableEq for Except

namespace Stylist

/-- JavaScript truthiness of an optional string: `undefined`/`null` and the
empty string are falsy, every other string is truthy. -/
def strTruthy : Option String → Bool
  | none => false
  | some s => !(s == "")

/-- Split a character list at every comma, JavaScript `split(",")`:
the empty input yields one empty segment. -/
def splitComma : List Char → List (List Char)
  | [] => [[]]
  | c :: rest =>
    if c == ',' then [] :: splitComma rest
    else
      match splitComma rest with
      | [] => [[c]]
      | seg :: segs => (c :: seg) :: segs

/-- Whether the first list starts the second one. -/
def leadsWith : List Char → List Char → Bool
  | [], _ => true
  | _ :: _, [] => false
  | p :: ps, c :: cs => p == c && leadsWith ps cs

/-- Whether the first list occurs contiguously inside the second one. -/
def containsSeq : List Char → List Char → Bool
  | pat, [] => leadsWith pat []
  | pat, c :: rest => leadsWith pat (c :: rest) || containsSeq pat rest

/-- The whitespace/line-terminator set removed by JavaScript
`String.prototype.trim`. -/
def isJsSpace (c : Char) : Bool :=
  c.toNat == 32 || c.toNat == 9 || c.toNat == 10 || c.toNat == 13 ||
  c.toNat == 11 || c.toNat == 12 || c.toNat == 160 || c.toNat == 0xFEFF ||
  c.toNat == 0x2028 || c.toNat == 0x2029

def dropLeadingSpaces : List Char → List Char
  | [] => []
  | c :: rest => if isJsSpace c then dropLeadingSpaces rest else c :: rest

/-- JavaScript `String.prototype.trim`. -/
def jsTrim (s : String) : String :=
  String.mk ((dropLeadingSpaces (dropLeadingSpaces s.toList).reverse).reverse)

/-- The TypeScript literal type `1 | 2` used for person ids and the person
count. -/
inductive OneOrTwo where
  | one
  | two
deriving DecidableEq, Repr

def OneOrTwo.toNat : OneOrTwo → Nat
  | .one => 1
  | .two => 2

/-- `UploadedImageInfo` from types.ts: a base64 payload plus a MIME type. -/
structure UploadedImageInfo where
  base64 : String
  mimeType : String
deriving DecidableEq, Repr

/-- `EditResult` from types.ts: an optional data-URI image and an optional
text fragment. -/
structure EditResult where
  image : Option String
  text : Option String
deriving DecidableEq, Repr

/-- `OutfitDetails` from types.ts. -/
structure OutfitDetails where
  top : String
  bottom : String
  shoes : String
  outer : Option String
  hat : Option String
  accessory : Option String
deriving DecidableEq, Repr

/-- One element of the `코디` list of `StyleIdeas`: a plain string or a
structured outfit. -/
inductive CodyItem where
  | str (s : String)
  | outfit (o : OutfitDetails)
deriving DecidableEq, Repr

/-- `StyleIdeas` from types.ts. -/
structure StyleIdeas where
  cody : List CodyItem
  hair : List String
  pose : List String
deriving DecidableEq, Repr

/-- `Person` from types.ts. -/
structure Person where
  id : OneOrTwo
  images : List UploadedImageInfo
  bodyShape : String
  height : String
  ageRange : String
  personalStyle : String
deriving DecidableEq, Repr

/-- The `appStep` union of the reducer state. -/
inductive AppStep where
  | upload
  | info
  | result
deriving DecidableEq, Repr

/-- The `generatingStatus` union of the reducer state. -/
inductive GeneratingStatus where
  | idle
  | generating
  | success
  | error
deriving DecidableEq, Repr

/-- The `cameraComposition` union. -/
inductive CameraComposition where
  | keep
  | recompose
deriving DecidableEq, Repr

/-- `GenerationHistoryItem` from part_000. -/
structure GenerationHistoryItem where
  result : EditResult
  originalImage : Option UploadedImageInfo
  prompt : String
  negativePrompt : String
  cameraComposition : CameraComposition
deriving DecidableEq, Repr

/-- `AppState` from part_000: the single root aggregate of the workflow
state machine. -/
structure AppState where
  numberOfPeople : OneOrTwo
  people : List Person
  selectedPersonId : OneOrTwo
  combineInOneImage : Bool
  appStep : AppStep
  styleReferenceImages : List UploadedImageInfo
  prompt : String
  negativePrompt : String
  cameraComposition : CameraComposition
  result : Option EditResult
  originalImageForDisplay : Option UploadedImageInfo
  isInfoSaved : Bool
  generatingStatus : GeneratingStatus
  isFetchingIdeas : Bool
  isAnalyzingStyle : Bool
  isExpandingPrompt : Bool
  error : Option String
  styleIdeas : Option StyleIdeas
  styleReferenceAnalysis : Option StyleIdeas
  styleReferenceAnalysisError : Option String
  isShareSupported : Bool
  generationHistory : List GenerationHistoryItem
deriving DecidableEq, Repr

/-- The editable text fields handled by `SET_PROMPT_INFO`. -/
inductive PromptField where
  | promptField
  | negativePromptField
deriving DecidableEq, Repr

/-- The editable per-person fields handled by `SET_PERSON_INFO`
(`keyof Omit<Person, id | images>`). -/
inductive PersonField where
  | bodyShape
  | height
  | ageRange
  | personalStyle
deriving DecidableEq, Repr

/-- `AppAction` from part_000: the closed union of reducer transitions. -/
inductive AppAction where
  | reset
  | setNumberOfPeople (payload : OneOrTwo)
  | setPersonImages (personId : OneOrTwo) (images : List UploadedImageInfo)
  | setStyleReferenceImages (payload : List UploadedImageInfo)
  | setPromptInfo (field : PromptField) (value : String)
  | setPersonInfo (personId : OneOrTwo) (field : PersonField) (value : String)
  | setAppStep (payload : AppStep)
  | setSelectedPersonId (payload : OneOrTwo)
  | toggleCombineInOneImage
  | fetchIdeasStart
  | fetchIdeasSuccess (payload : StyleIdeas)
  | fetchIdeasError (payload : String)
  | expandPromptStart
  | expandPromptSuccess (payload : String)
  | expandPromptError (payload : String)
  | generateStart (payload : UploadedImageInfo)
  | generateSuccess (payload : EditResult)
  | generateError (payload : String)
  | returnToInfo
  | continueEditing (payload : UploadedImageInfo)
  | analyzeStyleStart
  | analyzeStyleSuccess (payload : StyleIdeas)
  | analyzeStyleError (payload : String)
  | clearStyleAnalysis
  | setCameraComposition (payload : CameraComposition)
  | setShareSupport (payload : Bool)
  | saveInfoSuccess
  | loadFromHistory (payload : GenerationHistoryItem)
deriving DecidableEq, Repr

/-- `initialPersonState` from part_000. -/
def initialPersonState (id : OneOrTwo) : Person :=
  { id := id
    images := []
    bodyShape := ""
    height := ""
    ageRange := ""
    personalStyle := "" }

/-- `initialState` from part_000. -/
def initialState : AppState :=
  { numberOfPeople := .one
    people := [initialPersonState .one, initialPersonState .two]
    selectedPersonId := .one
    combineInOneImage := false
    appStep := .upload
    styleReferenceImages := []
    prompt := ""
    negativePrompt := ""
    cameraComposition := .keep
    result := none
    originalImageForDisplay := none
    isInfoSaved := false
    generatingStatus := .idle
    isFetchingIdeas := false
    isAnalyzingStyle := false
    isExpandingPrompt := false
    error := none
    styleIdeas := none
    styleReferenceAnalysis := none
    styleReferenceAnalysisError := none
    isShareSupported := false
    generationHistory := [] }

/-- Field update used by the `SET_PERSON_INFO` dynamic key assignment. -/
def Person.setField (p : Person) (field : PersonField) (value : String) : Person :=
  match field with
  | .bodyShape => { p with bodyShape := value }
  | .height => { p with height := value }
  | .ageRange => { p with ageRange := value }
  | .personalStyle => { p with personalStyle := value }

/-- `appReducer` from part_000, translated case by case. -/
def appReducer (state : AppState) (action : AppAction) : AppState :=
  match action with
  | .reset =>
      { initialState with
        isShareSupported := state.isShareSupported
        styleIdeas := state.styleIdeas }
  | .setNumberOfPeople payload =>
      { state with
        numberOfPeople := payload
        people := [initialPersonState .one, initialPersonState .two]
        isInfoSaved := false }
  | .setPersonImages personId images =>
      { state with
        people := state.people.map fun p =>
          if p.id = personId then { p with images := images } else p
        isInfoSaved := false }
  | .setStyleReferenceImages payload =>
      { state with styleReferenceImages := payload }
  | .setPromptInfo field value =>
      match field with
      | .promptField => { state with prompt := value }
      | .negativePromptField => { state with negativePrompt := value }
  | .setPersonInfo personId field value =>
      { state with
        people := state.people.map fun p =>
          if p.id = personId then p.setField field value else p
        isInfoSaved := false }
  | .setAppStep payload =>
      { state with appStep := payload }
  | .setSelectedPersonId payload =>
      { state with selectedPersonId := payload }
  | .toggleCombineInOneImage =>
      { state with combineInOneImage := !state.combineInOneImage }
  | .saveInfoSuccess =>
      { state with generatingStatus := .idle, isInfoSaved := true }
  | .fetchIdeasStart =>
      { state with isFetchingIdeas := true }
  | .fetchIdeasSuccess payload =>
      { state with isFetchingIdeas := false, styleIdeas := some payload }
  | .fetchIdeasError payload =>
      { state with isFetchingIdeas := false, error := some payload }
  | .expandPromptStart =>
      { state with isExpandingPrompt := true, error := none }
  | .expandPromptSuccess payload =>
      { state with isExpandingPrompt := false, prompt := payload }
  | .expandPromptError payload =>
      { state with isExpandingPrompt := false, error := some payload }
  | .generateStart payload =>
      { state with
        generatingStatus := .generating
        appStep := .result
        error := none
        result := none
        originalImageForDisplay := some payload }
  | .generateSuccess payload =>
      let newHistoryItem : Option GenerationHistoryItem :=
        if strTruthy payload.image then
          some
            { result := payload
              originalImage := state.originalImageForDisplay
              prompt := state.prompt
              negativePrompt := state.negativePrompt
              cameraComposition := state.cameraComposition }
        else none
      { state with
        generatingStatus := .success
        result := some payload
        generationHistory :=
          match newHistoryItem with
          | some item => item :: state.generationHistory
          | none => state.generationHistory }
  | .generateError payload =>
      { state with
        generatingStatus := .error
        appStep := .result
        error := some payload
        originalImageForDisplay := none }
  | .returnToInfo =>
      { state with
        appStep := .info
        generatingStatus := .idle
        error := none }
  | .continueEditing payload =>
      { initialState with
        appStep := .info
        numberOfPeople := .one
        people := [{ initialPersonState .one with images := [payload] },
                   initialPersonState .two]
        isShareSupported := state.isShareSupported
        styleIdeas := state.styleIdeas
        prompt := state.prompt
        generationHistory := state.generationHistory }
  | .analyzeStyleStart =>
      { state with
        isAnalyzingStyle := true
        styleReferenceAnalysis := none
        styleReferenceAnalysisError := none
        error := none }
  | .analyzeStyleSuccess payload =>
      { state with
        isAnalyzingStyle := false
        styleReferenceAnalysis := some payload
        styleReferenceAnalysisError := none }
  | .analyzeStyleError payload =>
      { state with
        isAnalyzingStyle := false
        styleReferenceAnalysis := none
        styleReferenceAnalysisError := some payload }
  | .clearStyleAnalysis =>
      { state with
        isAnalyzingStyle := false
        styleReferenceAnalysis := none
        styleReferenceAnalysisError := none }
  | .setCameraComposition payload =>
      { state with cameraComposition := payload }
  | .setShareSupport payload =>
      { state with isShareSupported := payload }
  | .loadFromHistory payload =>
      { state with
        result := some payload.result
        originalImageForDisplay := payload.originalImage
        prompt := payload.prompt
        negativePrompt := payload.negativePrompt
        cameraComposition := payload.cameraComposition
        error := none
        generatingStatus := .success }

/-- States reachable from `initialState` by reducer transitions. -/
inductive Reachable : AppState → Prop where
  | init : Reachable initialState
  | step {s : AppState} (a : AppAction) : Reachable s → Reachable (appReducer s a)

/-- `selectedPerson` from part_000: `people.find(p => p.id === selectedPersonId)`.
The source asserts the find succeeds with `!`; the model keeps the option. -/
def selectedPerson (s : AppState) : Option Person :=
  s.people.find? fun p => p.id == s.selectedPersonId

/-- `activePeople` from part_000:
`people.slice(0, numberOfPeople).filter(p => p.images.length > 0)`. -/
def activePeople (s : AppState) : List Person :=
  (s.people.take s.numberOfPeople.toNat).filter fun p => decide (0 < p.images.length)

/-- The argument tuple `handleGenerateClick` passes to the gateway
`editImage(peopleToGenerate, styleReferenceImages, prompt, negativePrompt,
cameraComposition)`. -/
structure EditRequest where
  people : List Person
  styleReferenceImages : List UploadedImageInfo
  prompt : String
  negativePrompt : String
  cameraComposition : CameraComposition
deriving DecidableEq, Repr

/-- The local-validation failure message dispatched by `handleGenerateClick`. -/
def generateValidationMessage : String := "사진을 업로드하고 프롬프트를 입력해주세요."

/-- `handleGenerateClick` from part_000 up to and including the decision to
contact the gateway. Result `none` models a runtime TypeError (the source
indexes `peopleToGenerate[0].images[0]` and `people.find(...)!` without a
guard); `some (s2, none)` is the validation-failure dispatch with no gateway
call; `some (s2, some req)` is the `GENERATE_START` dispatch together with the
request handed to `editImage`. -/
def handleGenerateClick (s : AppState) : Option (AppState × Option EditRequest) :=
  match selectedPerson s with
  | none => none
  | some sel =>
    let peopleToGenerate := if s.combineInOneImage then activePeople s else [sel]
    if peopleToGenerate.any (fun p => decide (p.images.length = 0)) || jsTrim s.prompt == "" then
      some (appReducer s (.generateError generateValidationMessage), none)
    else
      match peopleToGenerate with
      | [] => none
      | p :: _ =>
        match p.images with
        | [] => none
        | img :: _ =>
          some (appReducer s (.generateStart img),
                some { people := peopleToGenerate
                       styleReferenceImages := s.styleReferenceImages
                       prompt := s.prompt
                       negativePrompt := s.negativePrompt
                       cameraComposition := s.cameraComposition })

/-- Characters matched by `.` in a JavaScript regular expression without the
`s` flag: everything except the four line terminators. -/
def jsDotChar (c : Char) : Bool :=
  !(c.toNat == 10 || c.toNat == 13 || c.toNat == 0x2028 || c.toNat == 0x2029)

/-- Lazy capture of `(.*?);` — the shortest run of dot-characters ending at a
semicolon. -/
def lazyCaptureToSemi : List Char → Option (List Char)
  | [] => none
  | c :: rest =>
    if c == ';' then some []
    else if jsDotChar c then (lazyCaptureToSemi rest).map (c :: ·)
    else none

/-- First match of the capture group of the regex `:(.*?);` over a string,
scanning start positions left to right as the regex engine does. -/
def mimeMatch : List Char → Option String
  | [] => none
  | c :: rest =>
    if c == ':' then
      match lazyCaptureToSemi rest with
      | some cap => some (String.mk cap)
      | none => mimeMatch rest
    else mimeMatch rest

/-- The format-failure message dispatched by `handleContinueEditing`. -/
def continueEditingFormatError : String :=
  "이미지 형식이 올바르지 않아 편집을 계속할 수 없습니다."

/-- The data-URI reparse performed by `handleContinueEditing`:
`split(',')` into header and payload, both required truthy, then the MIME
type extracted from the header via `match(/:(.*?);/)`, required truthy. -/
def parseContinueImage (image : String) : Option UploadedImageInfo :=
  let parts := (splitComma image.toList).map String.mk
  let header := parts.headD ""
  let base64Data := parts[1]?
  if header == "" || !(strTruthy base64Data) then none
  else
    match mimeMatch header.toList with
    | none => none
    | some mime =>
      if mime == "" then none
      else some { base64 := base64Data.getD "", mimeType := mime }

/-- `handleContinueEditing` from part_000: no-op without a truthy result
image; otherwise reparse the data URI and dispatch either `CONTINUE_EDITING`
or the format-failure `GENERATE_ERROR`. -/
def handleContinueEditing (s : AppState) : AppState :=
  match s.result with
  | none => s
  | some r =>
    if !(strTruthy r.image) then s
    else
      match parseContinueImage (r.image.getD "") with
      | none => appReducer s (.generateError continueEditingFormatError)
      | some img => appReducer s (.continueEditing img)

/-- JavaScript `Math.round`: round half toward positive infinity. -/
def jsRound (x : ℚ) : ℤ := (x + 1 / 2).floor

/-- The target-dimension computation of `resizeImage` in the upload worker
(ImageUploader.tsx): scale the longer side down to `maxSize` preserving the
ratio, then round both coordinates. -/
def resizeDims (w h maxSize : ℚ) : ℤ × ℤ :=
  let wh : ℚ × ℚ :=
    if w > h then
      if w > maxSize then (maxSize, h * (maxSize / w)) else (w, h)
    else
      if h > maxSize then (w * (maxSize / h), maxSize) else (w, h)
  (jsRound wh.1, jsRound wh.2)

/-- An error thrown by the gateway SDK, reduced to its message. -/
structure GatewayError where
  message : String
deriving DecidableEq, Repr

/-- JavaScript `String.prototype.includes`. -/
def stringIncludes (s pat : String) : Bool := containsSeq pat.toList s.toList

/-- The rate-limit test of `withRetry` (geminiService.ts). -/
def isRateLimitError (e : GatewayError) : Bool :=
  stringIncludes e.message "\"code\":429" || stringIncludes e.message "RESOURCE_EXHAUSTED"

/-- The user-facing message thrown after the retry budget is exhausted. -/
def rateLimitFriendlyMessage : String :=
  "API 요청이 많아 일시적으로 처리할 수 없습니다. 잠시 후 다시 시도해주세요."

/-- Observable trace of one `withRetry` run: the surfaced result, how many
times the wrapped call was invoked, and the backoff delays slept between
attempts. -/
structure RetryTrace (α : Type) where
  result : Except String α
  attemptsMade : Nat
  delays : List ℚ
deriving DecidableEq, Repr

/-- Loop body of `withRetry`; `fuel = maxRetries - attempt` so the source
condition `attempt === maxRetries - 1` is `fuel = 1`. The wrapped call is a
function of the attempt index; `Math.random() * 1000` is the `jitter`
parameter. -/
def withRetryAux {α : Type} (call : Nat → Except GatewayError α) (jitter : Nat → ℚ)
    (initialDelay : ℚ) (attempt : Nat) (fuel : Nat) (delays : List ℚ) : RetryTrace α :=
  match fuel with
  | 0 => ⟨.error rateLimitFriendlyMessage, attempt, delays⟩
  | fuel' + 1 =>
    match call attempt with
    | .ok v => ⟨.ok v, attempt + 1, delays⟩
    | .error e =>
      if isRateLimitError e then
        if fuel' = 0 then ⟨.error rateLimitFriendlyMessage, attempt + 1, delays⟩
        else
          withRetryAux call jitter initialDelay (attempt + 1) fuel'
            (delays ++ [initialDelay * 2 ^ attempt + jitter attempt])
      else ⟨.error e.message, attempt + 1, delays⟩

/-- `withRetry` from geminiService.ts with its default budget: 3 attempts,
1000 ms initial delay. -/
def withRetry {α : Type} (call : Nat → Except GatewayError α) (jitter : Nat → ℚ) :
    RetryTrace α :=
  withRetryAux call jitter 1000 0 3 []

/-- An inline image fragment of a gateway response part. -/
structure InlineData where
  data : String
  mimeType : String
deriving DecidableEq, Repr

/-- One content fragment of a response candidate. -/
structure ResponsePart where
  text : Option String
  inlineData : Option InlineData
deriving DecidableEq, Repr

/-- A response candidate. `candidate.content?.parts` with an absent content
or parts collapses to `[]`, which the source treats identically to an empty
list. -/
structure ResponseCandidate where
  finishReason : Option String
  parts : List ResponsePart
deriving DecidableEq, Repr

/-- A gateway generate-content response as `editImage` inspects it.
`promptBlockReason` is `response.promptFeedback?.blockReason`; an absent
`candidates` array collapses to `[]` (both index to `undefined`). -/
structure GenResponse where
  promptBlockReason : Option String
  candidates : List ResponseCandidate
deriving DecidableEq, Repr

/-- The classified failures `editImage` can throw while validating a
response, in source order. -/
inductive EditFailure where
  | promptBlocked
  | noCandidate
  | finishSafety
  | finishRecitation
  | finishMaxTokens
  | finishOther (code : String)
  | emptyParts
  | noImageOrText
deriving DecidableEq, Repr

/-- Which classified failures the source throws as `SafetyError` (the rest
are `ApiError`). -/
def EditFailure.isSafetyError : EditFailure → Bool
  | .promptBlocked | .noCandidate | .finishSafety | .finishRecitation => true
  | _ => false

/-- The `switch (finishReason)` of `editImage` for an abnormal completion
reason (second variant, part of the application build). -/
def classifyFinishReason (fr : String) : EditFailure :=
  if fr == "SAFETY" then .finishSafety
  else if fr == "RECITATION" then .finishRecitation
  else if fr == "MAX_TOKENS" then .finishMaxTokens
  else .finishOther fr

/-- The extraction loop of `editImage` over the candidate parts: a truthy
text fragment overwrites `text`, otherwise a present inline image overwrites
`image` with a composed data URI. -/
def extractParts (parts : List ResponsePart) (acc : EditResult) : EditResult :=
  match parts with
  | [] => acc
  | p :: rest =>
    let acc2 :=
      if strTruthy p.text then { acc with text := p.text }
      else
        match p.inlineData with
        | some d =>
            { acc with image := some ("data:" ++ d.mimeType ++ ";base64," ++ d.data) }
        | none => acc
    extractParts rest acc2

/-- The response-validation section of `editImage` (geminiService.ts lines
1111-1159), translated check by check from the source. -/
def editImageValidate (r : GenResponse) : Except EditFailure EditResult :=
  if strTruthy r.promptBlockReason then .error .promptBlocked
  else
    match r.candidates.head? with
    | none => .error .noCandidate
    | some c =>
      if strTruthy c.finishReason && c.finishReason != some "STOP" then
        .error (classifyFinishReason (c.finishReason.getD ""))
      else if c.parts.length = 0 then .error .emptyParts
      else
        let res := extractParts c.parts { image := none, text := none }
        if !(strTruthy res.image) && !(strTruthy res.text) then .error .noImageOrText
        else .ok res

/-- Modelled from the spec: stage 1 of the five-stage chain — a top-level
block reason aborts as a safety failure. -/
def specStage1 (r : GenResponse) : Option EditFailure :=
  if strTruthy r.promptBlockReason then some .promptBlocked else none

/-- Modelled from the spec: stage 2 — an absent first candidate aborts as a
safety failure. -/
def specStage2 (r : GenResponse) : Option EditFailure :=
  if r.candidates.head?.isNone then some .noCandidate else none

/-- Modelled from the spec: stage 3 — a present candidate whose completion
reason is present and abnormal maps to one of the four classified failures. -/
def specStage3 (r : GenResponse) : Option EditFailure :=
  match r.candidates.head? with
  | none => none
  | some c =>
    match c.finishReason with
    | none => none
    | some fr =>
      if fr != "" && fr != "STOP" then some (classifyFinishReason fr) else none

/-- Modelled from the spec: stage 4 — a candidate with zero content parts is
a transport-shape failure. -/
def specStage4 (r : GenResponse) : Option EditFailure :=
  match r.candidates.head? with
  | none => none
  | some c => if c.parts.isEmpty then some .emptyParts else none

/-- The result extracted from the first candidate of a response. -/
def specExtracted (r : GenResponse) : EditResult :=
  match r.candidates.head? with
  | none => { image := none, text := none }
  | some c => extractParts c.parts { image := none, text := none }

/-- Modelled from the spec: stage 5 — neither an image nor a text fragment
extracted is a transport-shape failure. -/
def specStage5 (r : GenResponse) : Option EditFailure :=
  if !(strTruthy (specExtracted r).image) && !(strTruthy (specExtracted r).text) then
    some .noImageOrText
  else none

/-- Modelled from the spec: the strict five-stage validation chain — each
stage either aborts with its classified failure or passes to the next, and a
response passing all five yields the extracted result. -/
def specFiveStageChain (r : GenResponse) : Except EditFailure EditResult :=
  match [specStage1 r, specStage2 r, specStage3 r, specStage4 r, specStage5 r].findSome? id with
  | some e => .error e
  | none => .ok (specExtracted r)

/-- The durable per-tab cache slot for trend ideas, as `fetchStyleIdeas`
distinguishes its contents: an entry whose JSON parse throws, or a parsed
`(timestamp, data)` pair. -/
inductive StoredCache where
  | malformed
  | entry (timestamp : Nat) (data : StyleIdeas)
deriving DecidableEq, Repr

/-- `CACHE_DURATION` from geminiService.ts: one hour in milliseconds. -/
def CACHE_DURATION : Int := 1000 * 60 * 60

/-- The environment a `fetchStyleIdeas` run reads: the wall clock, the cache
slot, and the outcome the network call would produce if issued (an error
covers transport failure and the shape-validation throw alike). -/
structure FetchEnv where
  now : Nat
  stored : Option StoredCache
  network : Except String StyleIdeas
deriving DecidableEq, Repr

/-- Observable outcome of one `fetchStyleIdeas` run. -/
structure FetchOutcome where
  result : Except String StyleIdeas
  networkCalled : Bool
  storedAfter : Option StoredCache
deriving DecidableEq, Repr

/-- The failure message `fetchStyleIdeas` surfaces. -/
def fetchIdeasFailureMessage : String := "최신 스타일 아이디어를 불러오는 데 실패했습니다."

/-- `fetchStyleIdeas` from geminiService.ts (second variant): cache read
with expiry unless forced, malformed entry cleared and treated as a miss,
then the network fetch, persisting a fresh `(timestamp, data)` entry on
success. -/
def fetchStyleIdeas (forceRefresh : Bool) (env : FetchEnv) : FetchOutcome :=
  let cachePhase : Option StyleIdeas × Option StoredCache :=
    if forceRefresh then (none, env.stored)
    else
      match env.stored with
      | none => (none, env.stored)
      | some .malformed => (none, none)
      | some (.entry ts d) =>
        if (env.now : Int) - ts < CACHE_DURATION then (some d, env.stored)
        else (none, env.stored)
  match cachePhase with
  | (some d, st) => ⟨.ok d, false, st⟩
  | (none, st) =>
    match env.network with
    | .ok ideas => ⟨.ok ideas, true, some (.entry env.now ideas)⟩
    | .error _ => ⟨.error fetchIdeasFailureMessage, true, st⟩

/-- Whether the throttle timer of `refreshStyleIdeas` is still pending:
`throttleTimeoutRef.current` is non-null until the 1000 ms timeout fires.
The ref is modelled by the instant the pending timer will fire. -/
def throttleActive (ref : Option Nat) (now : Nat) : Bool :=
  match ref with
  | none => false
  | some expiry => decide (now < expiry)

/-- Observable outcome of one `refreshStyleIdeas` call: whether it went on
to dispatch and fetch, and the throttle ref afterwards. -/
structure RefreshOutcome where
  proceeded : Bool
  throttleRef : Option Nat
deriving DecidableEq, Repr

/-- `refreshStyleIdeas` from part_000 up to the fetch decision: a forced
call returns early while the throttle timer is pending, otherwise arms a
1000 ms timer; a non-forced call is never throttled. -/
def refreshStyleIdeas (force : Bool) (ref : Option Nat) (now : Nat) : RefreshOutcome :=
  if force then
    if throttleActive ref now then ⟨false, ref⟩
    else ⟨true, some (now + 1000)⟩
  else ⟨true, ref⟩

theorem jsRound_eq_floor (x : ℚ) : jsRound x = ⌊x + 1 / 2⌋ := by
  rw [jsRound, Rat.floor_def', Rat.floor_def]

/-- C3: for every state and `GENERATE_SUCCESS` payload, a payload carrying an
image prepends exactly one snapshot entry (result, original image, prompt,
negative prompt, camera composition) to the front of `generationHistory`,
while a payload without an image leaves `generationHistory` unchanged. -/
theorem generateSuccess_history (s : AppState) (r : EditResult) :
    ((∃ img, r.image = some img ∧ img ≠ "") →
      (appReducer s (.generateSuccess r)).generationHistory =
        { result := r
          originalImage := s.originalImageForDisplay
          prompt := s.prompt
          negativePrompt := s.negativePrompt
          cameraComposition := s.cameraComposition } :: s.generationHistory) ∧
    (r.image = none →
      (appReducer s (.generateSuccess r)).generationHistory = s.generationHistory) := by
  constructor
  · rintro ⟨img, himg, hne⟩
    simp [appReducer, himg, strTruthy, hne]
  · intro himg
    simp [appReducer, himg, strTruthy]

/-- Witness for C3 at a concrete state and payload. -/
theorem generateSuccess_history_witness :
    (appReducer initialState
        (.generateSuccess { image := some "data:image/png;base64,AAAA", text := none })).generationHistory =
      { result := { image := some "data:image/png;base64,AAAA", text := none }
        originalImage := initialState.originalImageForDisplay
        prompt := initialState.prompt
        negativePrompt := initialState.negativePrompt
        cameraComposition := initialState.cameraComposition } :: initialState.generationHistory :=
  (generateSuccess_history initialState
      { image := some "data:image/png;base64,AAAA", text := none }).1
    ⟨"data:image/png;base64,AAAA", rfl, by decide⟩

/-- C4: if some person of the generation set (the active people when combine
mode is on, else the selected person) has no image, or the trimmed prompt is
empty, `handleGenerateClick` dispatches the validation `GENERATE_ERROR` —
the state moves to the error generating status — and no request is handed to
the gateway. -/
theorem generate_validation (s : AppState) (sel : Person)
    (hsel : selectedPerson s = some sel)
    (hviol : (∃ p ∈ (if s.combineInOneImage then activePeople s else [sel]), p.images = []) ∨
      jsTrim s.prompt = "") :
    handleGenerateClick s =
      some (appReducer s (.generateError generateValidationMessage), none) ∧
    (appReducer s (.generateError generateValidationMessage)).generatingStatus = .error := by
  have hcond : ((if s.combineInOneImage then activePeople s else [sel]).any
      (fun p => decide (p.images.length = 0)) || jsTrim s.prompt == "") = true := by
    rcases hviol with ⟨p, hp, hpi⟩ | hp
    · apply Bool.or_eq_true_iff.mpr
      left
      exact List.any_eq_true.mpr ⟨p, hp, by simp [hpi]⟩
    · apply Bool.or_eq_true_iff.mpr
      right
      simp [hp]
  refine ⟨?_, rfl⟩
  unfold handleGenerateClick
  rw [hsel]
  simp only [hcond, if_true]

/-- Witness for C4: the spec scenario — no uploaded image, non-empty prompt. -/
theorem generate_validation_witness :
    handleGenerateClick { initialState with prompt := "blue dress" } =
      some (appReducer { initialState with prompt := "blue dress" }
              (.generateError generateValidationMessage), none) ∧
    (appReducer { initialState with prompt := "blue dress" }
        (.generateError generateValidationMessage)).generatingStatus = .error :=
  generate_validation { initialState with prompt := "blue dress" }
    (initialPersonState .one) (by decide)
    (Or.inl ⟨initialPersonState .one, by decide, rfl⟩)

/-- C10: in combine mode the generation set handed to `editImage` is exactly
the people among the first `numberOfPeople` slots whose image list is
non-empty; an imageless active slot is excluded from the request rather than
tripping the missing-image validation, which therefore can only reject for
an empty trimmed prompt. -/
theorem combine_generation_set (s : AppState) (sel p0 : Person) (ps : List Person)
    (hc : s.combineInOneImage = true)
    (hsel : selectedPerson s = some sel)
    (hprompt : jsTrim s.prompt ≠ "")
    (hne : activePeople s = p0 :: ps) :
    (activePeople s).any (fun p => decide (p.images.length = 0)) = false ∧
    ∃ st req, handleGenerateClick s = some (st, some req) ∧
      req.people =
        (s.people.take s.numberOfPeople.toNat).filter (fun p => !p.images.isEmpty) ∧
      ∀ p ∈ s.people.take s.numberOfPeople.toNat, p.images = [] → p ∉ req.people := by
  have hfilter : activePeople s =
      (s.people.take s.numberOfPeople.toNat).filter (fun p => !p.images.isEmpty) := by
    unfold activePeople
    congr 1
    funext p
    cases hi : p.images <;> simp [hi]
  have hmem : ∀ p ∈ activePeople s, p.images ≠ [] := by
    intro p hp
    have := List.of_mem_filter hp
    intro hnil
    simp [hnil] at this
  have hany : (activePeople s).any (fun p => decide (p.images.length = 0)) = false := by
    rw [Bool.eq_false_iff]
    intro hcontra
    obtain ⟨p, hp, hlen⟩ := List.any_eq_true.mp hcontra
    exact hmem p hp (List.length_eq_zero.mp (by simpa using hlen))
  refine ⟨hany, ?_⟩
  have hcond : ((activePeople s).any (fun p => decide (p.images.length = 0)) ||
      jsTrim s.prompt == "") = false := by
    rw [hany]
    simpa using hprompt
  have hp0 : p0.images ≠ [] := hmem p0 (hne ▸ List.mem_cons_self p0 ps)
  cases hpi : p0.images with
  | nil => exact absurd hpi hp0
  | cons img rest =>
    refine ⟨appReducer s (.generateStart img),
      ⟨p0 :: ps, s.styleReferenceImages, s.prompt, s.negativePrompt, s.cameraComposition⟩,
      ?_, ?_, ?_⟩
    · have hcond2 : (((p0 :: ps).any fun p => decide (p.images.length = 0)) ||
          jsTrim s.prompt == "") = false := hne ▸ hcond
      unfold handleGenerateClick
      rw [hsel]
      simp only [hc, if_true, hne]
      rw [if_neg (by rw [hcond2]; simp), hpi]
    · rw [hne] at hfilter
      exact hfilter
    · intro p hp hnil hmemreq
      exact hmem p (hne ▸ hmemreq) hnil

/-- Witness for C10: two active people, person 2 without images, combine on. -/
theorem combine_generation_set_witness :
    (activePeople
        { initialState with
          combineInOneImage := true
          numberOfPeople := .two
          people := [{ initialPersonState .one with images := [⟨"AA", "image/png"⟩] },
                     initialPersonState .two]
          prompt := "dress" }).any (fun p => decide (p.images.length = 0)) = false ∧
    ∃ st req,
      handleGenerateClick
          { initialState with
            combineInOneImage := true
            numberOfPeople := .two
            people := [{ initialPersonState .one with images := [⟨"AA", "image/png"⟩] },
                       initialPersonState .two]
            prompt := "dress" } = some (st, some req) ∧
      req.people =
        (({ initialState with
            combineInOneImage := true
            numberOfPeople := .two
            people := [{ initialPersonState .one with images := [⟨"AA", "image/png"⟩] },
                       initialPersonState .two]
            prompt := "dress" } : AppState).people.take 2).filter
          (fun p => !p.images.isEmpty) ∧
      ∀ p ∈ ({ initialState with
            combineInOneImage := true
            numberOfPeople := .two
            people := [{ initialPersonState .one with images := [⟨"AA", "image/png"⟩] },
                       initialPersonState .two]
            prompt := "dress" } : AppState).people.take 2,
        p.images = [] → p ∉ req.people :=
  combine_generation_set _
    { initialPersonState .one with images := [⟨"AA", "image/png"⟩] }
    { initialPersonState .one with images := [⟨"AA", "image/png"⟩] } []
    rfl (by decide) (by decide) (by decide)

/-- C8: two forced trend-idea refreshes within one second produce exactly one
network call — the first proceeds (and a forced fetch always contacts the
network), the second is dropped with the throttle state unchanged, so
nothing is queued. -/
theorem forced_refresh_throttle (r0 : Option Nat) (t1 t2 : Nat) (env : FetchEnv)
    (h0 : throttleActive r0 t1 = false) (_h12 : t1 ≤ t2) (hlt : t2 < t1 + 1000) :
    (refreshStyleIdeas true r0 t1).proceeded = true ∧
    (fetchStyleIdeas true env).networkCalled = true ∧
    (refreshStyleIdeas true (refreshStyleIdeas true r0 t1).throttleRef t2).proceeded = false ∧
    (refreshStyleIdeas true (refreshStyleIdeas true r0 t1).throttleRef t2).throttleRef =
      (refreshStyleIdeas true r0 t1).throttleRef := by
  have hfirst : refreshStyleIdeas true r0 t1 = ⟨true, some (t1 + 1000)⟩ := by
    simp [refreshStyleIdeas, h0]
  have hactive : throttleActive (some (t1 + 1000)) t2 = true := by
    simp [throttleActive, hlt]
  refine ⟨by rw [hfirst], ?_, ?_, ?_⟩
  · cases hn : env.network <;> simp [fetchStyleIdeas, hn]
  · rw [hfirst]
    simp [refreshStyleIdeas, hactive]
  · rw [hfirst]
    simp [refreshStyleIdeas, hactive]

/-- Witness for C8 at concrete instants 0 and 500. -/
theorem forced_refresh_throttle_witness :
    (refreshStyleIdeas true none 0).proceeded = true ∧
    (fetchStyleIdeas true ⟨0, none, .error "net"⟩).networkCalled = true ∧
    (refreshStyleIdeas true (refreshStyleIdeas true none 0).throttleRef 500).proceeded = false ∧
    (refreshStyleIdeas true (refreshStyleIdeas true none 0).throttleRef 500).throttleRef =
      (refreshStyleIdeas true none 0).throttleRef :=
  forced_refresh_throttle none 0 500 ⟨0, none, .error "net"⟩ rfl (by decide) (by decide)

/-- C7: a non-forced trend-ideas fetch answers from the cache with no network
call exactly when the stored entry parses and is younger than one hour; a
stale entry triggers a network fetch; a malformed entry is treated as a miss
and its slot cleared; a successful network fetch persists the new payload
with the current timestamp. -/
theorem trend_cache_freshness (env : FetchEnv) :
    ((fetchStyleIdeas false env).networkCalled = false ↔
      ∃ ts d, env.stored = some (.entry ts d) ∧ (env.now : Int) - ts < CACHE_DURATION) ∧
    (∀ ts d, env.stored = some (.entry ts d) → (env.now : Int) - ts < CACHE_DURATION →
      fetchStyleIdeas false env = ⟨.ok d, false, env.stored⟩) ∧
    (∀ ts d, env.stored = some (.entry ts d) → ¬((env.now : Int) - ts < CACHE_DURATION) →
      (fetchStyleIdeas false env).networkCalled = true) ∧
    (env.stored = some .malformed →
      (fetchStyleIdeas false env).networkCalled = true ∧
      ∀ m, env.network = .error m → (fetchStyleIdeas false env).storedAfter = none) ∧
    (∀ ideas, env.network = .ok ideas → (fetchStyleIdeas false env).networkCalled = true →
      (fetchStyleIdeas false env).storedAfter = some (.entry env.now ideas) ∧
      (fetchStyleIdeas false env).result = .ok ideas) := by
  obtain ⟨now, stored, network⟩ := env
  rcases stored with _ | (_ | ⟨ts, d⟩)
  · cases network <;> simp [fetchStyleIdeas]
  · cases network <;> simp [fetchStyleIdeas]
  · by_cases hts : (now : Int) - ts < CACHE_DURATION
    · cases network <;> simp [fetchStyleIdeas, hts]
    · cases network <;> simp [fetchStyleIdeas, hts] <;> omega

/-- Witness for C7: a fresh entry is returned without a network call. -/
theorem trend_cache_freshness_witness :
    fetchStyleIdeas false ⟨5000, some (.entry 1000 ⟨[], [], []⟩), .error "net"⟩ =
      ⟨.ok ⟨[], [], []⟩, false, some (.entry 1000 ⟨[], [], []⟩)⟩ :=
  (trend_cache_freshness ⟨5000, some (.entry 1000 ⟨[], [], []⟩), .error "net"⟩).2.1
    1000 ⟨[], [], []⟩ rfl (by decide)

/-- C6: a gateway call wrapped by `withRetry` retries only on rate-limit
failures, up to 3 attempts with doubling 1000 ms backoff plus jitter: two
rate-limited attempts followed by a success return that result cleanly; a
non-rate-limit error is surfaced at once with its message and no retry;
three rate-limited failures surface the user-facing too-many-requests
message only after the third attempt. -/
theorem retry_policy {α : Type} (call : Nat → Except GatewayError α) (jitter : Nat → ℚ) :
    (∀ e0 e1 v, call 0 = .error e0 → isRateLimitError e0 = true →
      call 1 = .error e1 → isRateLimitError e1 = true → call 2 = .ok v →
      withRetry call jitter = ⟨.ok v, 3, [1000 + jitter 0, 2000 + jitter 1]⟩) ∧
    (∀ e, call 0 = .error e → isRateLimitError e = false →
      withRetry call jitter = ⟨.error e.message, 1, []⟩) ∧
    (∀ e0 e1 e2, call 0 = .error e0 → isRateLimitError e0 = true →
      call 1 = .error e1 → isRateLimitError e1 = true →
      call 2 = .error e2 → isRateLimitError e2 = true →
      withRetry call jitter =
        ⟨.error rateLimitFriendlyMessage, 3, [1000 + jitter 0, 2000 + jitter 1]⟩) := by
  refine ⟨?_, ?_, ?_⟩
  · intro e0 e1 v h0 hr0 h1 hr1 h2
    simp only [withRetry, withRetryAux, h0, hr0, h1, hr1, h2]
    norm_num
  · intro e h0 hr0
    simp only [withRetry, withRetryAux, h0, hr0]
    norm_num
  · intro e0 e1 e2 h0 hr0 h1 hr1 h2 hr2
    simp only [withRetry, withRetryAux, h0, hr0, h1, hr1, h2, hr2]
    norm_num

/-- Witness for C6: rate-limited twice, then success on the third attempt. -/
theorem retry_policy_witness :
    withRetry (fun k => if k < 2 then .error ⟨"RESOURCE_EXHAUSTED"⟩ else .ok (7 : Nat))
        (fun _ => 0) =
      ⟨.ok 7, 3, [1000 + (fun _ : Nat => (0 : ℚ)) 0, 2000 + (fun _ : Nat => (0 : ℚ)) 1]⟩ :=
  (retry_policy (fun k => if k < 2 then .error ⟨"RESOURCE_EXHAUSTED"⟩ else .ok (7 : Nat))
      (fun _ => 0)).1 ⟨"RESOURCE_EXHAUSTED"⟩ ⟨"RESOURCE_EXHAUSTED"⟩ 7
    rfl (by decide) rfl (by decide) rfl

theorem jsRound_natCast (n : Nat) : jsRound (n : ℚ) = (n : Int) := by
  rw [jsRound_eq_floor]
  rw [Int.floor_eq_iff]
  constructor
  · push_cast
    linarith
  · push_cast
    linarith

theorem jsRound_le_bound (x : ℚ) (hx : x ≤ 1024) : jsRound x ≤ 1024 := by
  rw [jsRound_eq_floor]
  have hlt : ⌊x + 1 / 2⌋ < 1025 := Int.floor_lt.mpr (by push_cast; linarith)
  omega

/-- C9: the worker resize computation — for a positive bitmap, a landscape
wider than 1024 maps to `(1024, round(h * 1024 / w))`, a portrait or square
taller than 1024 maps to `(round(w * 1024 / h), 1024)`, anything already
within 1024 passes through unchanged, and both output sides are at most
1024. -/
theorem resize_dimensions (w h : Nat) (hw : 0 < w) (hh : 0 < h) :
    (((w : ℚ) > (h : ℚ) ∧ (w : ℚ) > 1024) →
      resizeDims w h 1024 = (1024, jsRound ((h : ℚ) * 1024 / (w : ℚ)))) ∧
    (((w : ℚ) ≤ (h : ℚ) ∧ (h : ℚ) > 1024) →
      resizeDims w h 1024 = (jsRound ((w : ℚ) * 1024 / (h : ℚ)), 1024)) ∧
    ((((w : ℚ) > (h : ℚ) ∧ (w : ℚ) ≤ 1024) ∨ ((w : ℚ) ≤ (h : ℚ) ∧ (h : ℚ) ≤ 1024)) →
      resizeDims w h 1024 = ((w : Int), (h : Int))) ∧
    (resizeDims w h 1024).1 ≤ 1024 ∧ (resizeDims w h 1024).2 ≤ 1024 := by
  have hwq : (0 : ℚ) < (w : ℚ) := by exact_mod_cast hw
  have hhq : (0 : ℚ) < (h : ℚ) := by exact_mod_cast hh
  by_cases h1 : (w : ℚ) > (h : ℚ)
  · by_cases h2 : (w : ℚ) > 1024
    · have hd : resizeDims w h 1024 = (jsRound 1024, jsRound ((h : ℚ) * (1024 / (w : ℚ)))) := by
        simp [resizeDims, h1, h2]
      have hassoc : (h : ℚ) * (1024 / (w : ℚ)) = (h : ℚ) * 1024 / (w : ℚ) := by ring
      have h1024 : jsRound (1024 : ℚ) = 1024 := by
        have := jsRound_natCast 1024
        norm_num at this
        exact this
      have hlt : (h : ℚ) * 1024 / (w : ℚ) ≤ 1024 := by
        rw [div_le_iff₀ hwq]
        nlinarith
      refine ⟨fun _ => by rw [hd, hassoc, h1024], fun hcontra => absurd hcontra.1 (by linarith),
        fun hcontra => ?_, ?_, ?_⟩
      · rcases hcontra with ⟨_, hb⟩ | ⟨ha, _⟩
        · exact absurd hb (by linarith)
        · exact absurd ha (by linarith)
      · rw [hd, h1024]
      · rw [hd, hassoc]
        exact jsRound_le_bound _ hlt
    · have hd : resizeDims w h 1024 = (jsRound w, jsRound h) := by
        simp [resizeDims, h1, h2]
      have hwle : (w : ℚ) ≤ 1024 := by linarith
      refine ⟨fun hcontra => absurd hcontra.2 (by linarith),
        fun hcontra => absurd hcontra.1 (by linarith),
        fun _ => by rw [hd, jsRound_natCast, jsRound_natCast], ?_, ?_⟩
      · rw [hd]
        exact jsRound_le_bound _ hwle
      · rw [hd]
        exact jsRound_le_bound _ (by linarith)
  · by_cases h2 : (h : ℚ) > 1024
    · have hd : resizeDims w h 1024 = (jsRound ((w : ℚ) * (1024 / (h : ℚ))), jsRound 1024) := by
        simp [resizeDims, h1, h2]
      have hassoc : (w : ℚ) * (1024 / (h : ℚ)) = (w : ℚ) * 1024 / (h : ℚ) := by ring
      have h1024 : jsRound (1024 : ℚ) = 1024 := by
        have := jsRound_natCast 1024
        norm_num at this
        exact this
      have hle : (w : ℚ) * 1024 / (h : ℚ) ≤ 1024 := by
        rw [div_le_iff₀ hhq]
        nlinarith [le_of_not_lt h1]
      refine ⟨fun hcontra => absurd hcontra.1 (by linarith),
        fun _ => by rw [hd, hassoc, h1024], fun hcontra => ?_, ?_, ?_⟩
      · rcases hcontra with ⟨ha, _⟩ | ⟨_, hb⟩
        · exact absurd ha (by linarith)
        · exact absurd hb (by linarith)
      · rw [hd, hassoc]
        exact jsRound_le_bound _ hle
      · rw [hd, h1024]
    · have hd : resizeDims w h 1024 = (jsRound w, jsRound h) := by
        simp [resizeDims, h1, h2]
      have hhle : (h : ℚ) ≤ 1024 := by linarith
      have hwh : (w : ℚ) ≤ (h : ℚ) := le_of_not_lt h1
      refine ⟨fun hcontra => absurd hcontra.1 (by linarith),
        fun hcontra => absurd hcontra.2 (by linarith),
        fun _ => by rw [hd, jsRound_natCast, jsRound_natCast], ?_, ?_⟩
      · rw [hd]
        exact jsRound_le_bound _ (by linarith)
      · rw [hd]
        exact jsRound_le_bound _ hhle

/-- Witness for C9: a 2000 by 1000 bitmap is scaled to 1024 wide. -/
theorem resize_dimensions_witness :
    resizeDims 2000 1000 1024 = (1024, jsRound ((1000 : ℚ) * 1024 / (2000 : ℚ))) := by
  have := (resize_dimensions 2000 1000 (by norm_num) (by norm_num)).1 (by norm_num)
  exact_mod_cast this

theorem some_bne_some (a b : String) : (some a != some b) = (a != b) := rfl

theorem strTruthy_none : strTruthy none = false := rfl

theorem strTruthy_some (s : String) : strTruthy (some s) = !(s == "") := rfl

/-- C5: validating an `editImage` response is exactly the five-stage chain
the spec describes — top-level block reason (safety), absent first candidate
(safety), abnormal completion reason classified as safety-block,
recitation-block, token-limit or other-unspecified, zero content parts
(transport shape), and empty extraction (transport shape) — each stage
aborting with its classified failure or passing to the next. -/
theorem editImage_five_stage (r : GenResponse) :
    editImageValidate r = specFiveStageChain r := by
  cases hb : strTruthy r.promptBlockReason
  · cases hc : r.candidates.head? with
    | none =>
        simp [editImageValidate, specFiveStageChain, specStage1, specStage2, specStage3,
          specStage4, specStage5, specExtracted, List.findSome?, hb, hc]
    | some c =>
        cases hfr : c.finishReason with
        | none =>
            cases hp : c.parts with
            | nil =>
                simp [editImageValidate, specFiveStageChain, specStage1, specStage2,
                  specStage3, specStage4, specStage5, specExtracted, List.findSome?,
                  hb, hc, hfr, hp, strTruthy_none]
            | cons p ps =>
                cases hres : (!(strTruthy (extractParts (p :: ps)
                      { image := none, text := none }).image) &&
                    !(strTruthy (extractParts (p :: ps)
                      { image := none, text := none }).text)) <;>
                  simp [editImageValidate, specFiveStageChain, specStage1, specStage2,
                    specStage3, specStage4, specStage5, specExtracted, List.findSome?,
                    hb, hc, hfr, hp, hres, strTruthy_none]
        | some fr =>
            by_cases h1 : fr = ""
            · cases hp : c.parts with
              | nil =>
                  simp [editImageValidate, specFiveStageChain, specStage1, specStage2,
                    specStage3, specStage4, specStage5, specExtracted, List.findSome?,
                    hb, hc, hfr, hp, h1, strTruthy_some, some_bne_some]
              | cons p ps =>
                  cases hres : (!(strTruthy (extractParts (p :: ps)
                        { image := none, text := none }).image) &&
                      !(strTruthy (extractParts (p :: ps)
                        { image := none, text := none }).text)) <;>
                    simp [editImageValidate, specFiveStageChain, specStage1, specStage2,
                      specStage3, specStage4, specStage5, specExtracted, List.findSome?,
                      hb, hc, hfr, hp, hres, h1, strTruthy_some, some_bne_some]
            · by_cases h2 : fr = "STOP"
              · cases hp : c.parts with
                | nil =>
                    simp [editImageValidate, specFiveStageChain, specStage1, specStage2,
                      specStage3, specStage4, specStage5, specExtracted, List.findSome?,
                      hb, hc, hfr, hp, h1, h2, strTruthy_some, some_bne_some]
                | cons p ps =>
                    cases hres : (!(strTruthy (extractParts (p :: ps)
                          { image := none, text := none }).image) &&
                        !(strTruthy (extractParts (p :: ps)
                          { image := none, text := none }).text)) <;>
                      simp [editImageValidate, specFiveStageChain, specStage1, specStage2,
                        specStage3, specStage4, specStage5, specExtracted, List.findSome?,
                        hb, hc, hfr, hp, hres, h1, h2, strTruthy_some, some_bne_some]
              · simp [editImageValidate, specFiveStageChain, specStage1, specStage2,
                  specStage3, specStage4, specStage5, specExtracted, List.findSome?,
                  hb, hc, hfr, h1, h2, strTruthy_some, some_bne_some]
  · simp [editImageValidate, specFiveStageChain, specStage1, List.findSome?, hb]

/-- C1 as stated (result non-null iff status success on all reachable
states) is false: after a successful generation, `RETURN_TO_INFO` keeps the
non-null result while resetting the status to idle. -/
theorem result_iff_success_refuted :
    ¬ (∀ s : AppState, Reachable s →
        ((s.result ≠ none) ↔ s.generatingStatus = .success)) := by
  intro hall
  have hreach : Reachable (appReducer (appReducer initialState
      (.generateSuccess { image := some "data:image/png;base64,AAAA", text := none }))
      .returnToInfo) :=
    .step _ (.step _ .init)
  have hidle := (hall _ hreach).mp (by decide)
  exact absurd hidle (by decide)

/-- C1 (amended): on every reachable state, a `success` generating status
guarantees a non-null result; the converse direction fails because
`RETURN_TO_INFO`, `GENERATE_ERROR` and `SAVE_INFO_SUCCESS` leave a stale
non-null result behind while moving the status away from `success`. -/
theorem success_implies_result (s : AppState) (hs : Reachable s) :
    s.generatingStatus = .success → s.result ≠ none := by
  induction hs with
  | init => exact fun hcontra => absurd hcontra (by decide)
  | step a _ ih =>
    cases a <;> try exact fun hsucc => ih hsucc
    case setPromptInfo f v => cases f <;> exact fun hsucc => ih hsucc
    case generateSuccess r => exact fun _ hnone => nomatch hnone
    case loadFromHistory it => exact fun _ hnone => nomatch hnone
    all_goals exact fun hsucc => nomatch hsucc

/-- Witness for C1 at a concrete reachable success state. -/
theorem success_implies_result_witness :
    (appReducer initialState
        (.generateSuccess { image := some "data:image/png;base64,AAAA", text := none })).result
      ≠ none :=
  success_implies_result _ (.step _ .init) rfl

/-- C2 as stated is false: the `CONTINUE_EDITING` transition keeps the
prompt (`prompt: state.prompt`) instead of clearing it. -/
theorem continue_editing_prompt_not_cleared :
    (handleContinueEditing
        (appReducer (appReducer initialState (.setPromptInfo .promptField "blue dress"))
          (.generateSuccess { image := some "data:image/png;base64,AAAA", text := none }))).appStep
      = .info ∧
    (handleContinueEditing
        (appReducer (appReducer initialState (.setPromptInfo .promptField "blue dress"))
          (.generateSuccess { image := some "data:image/png;base64,AAAA", text := none }))).prompt
      = "blue dress" ∧
    ¬ (handleContinueEditing
        (appReducer (appReducer initialState (.setPromptInfo .promptField "blue dress"))
          (.generateSuccess { image := some "data:image/png;base64,AAAA", text := none }))).prompt
      = "" := by
  decide

/-- C2 (amended): after a successful generation whose result carries an
image, continue-editing reparses the data URI; on a parsable header the
workflow restarts at the info step with person 1 seeded by exactly the
parsed image, the history untouched and the prompt preserved (not cleared);
on an unparsable header it dispatches the format `GENERATE_ERROR` and the
workflow is not restarted. -/
theorem continue_editing_chain (s : AppState) (r : EditResult) (img : String)
    (hres : s.result = some r) (himg : r.image = some img) (hne : img ≠ "") :
    (∀ b64 mime, parseContinueImage img = some ⟨b64, mime⟩ →
      (handleContinueEditing s).appStep = .info ∧
      (handleContinueEditing s).people.map Person.images = [[⟨b64, mime⟩], []] ∧
      (handleContinueEditing s).generationHistory = s.generationHistory ∧
      (handleContinueEditing s).prompt = s.prompt) ∧
    (parseContinueImage img = none →
      handleContinueEditing s = appReducer s (.generateError continueEditingFormatError) ∧
      (handleContinueEditing s).generatingStatus = .error ∧
      (handleContinueEditing s).people = s.people ∧
      (handleContinueEditing s).generationHistory = s.generationHistory) := by
  have htru : strTruthy (some img) = true := by simp [strTruthy, hne]
  constructor
  · intro b64 mime hparse
    simp [handleContinueEditing, hres, himg, htru, hparse, appReducer, initialPersonState]
  · intro hparse
    simp [handleContinueEditing, hres, himg, htru, hparse, appReducer]

/-- Witness for C2 applying the amended theorem to a concrete run. -/
theorem continue_editing_chain_witness :
    (handleContinueEditing
        (appReducer (appReducer initialState (.setPromptInfo .negativePromptField "no hats"))
          (.generateSuccess { image := some "data:image/jpeg;base64,QQQQ", text := none }))).appStep
      = .info ∧
    (handleContinueEditing
        (appReducer (appReducer initialState (.setPromptInfo .negativePromptField "no hats"))
          (.generateSuccess { image := some "data:image/jpeg;base64,QQQQ", text := none }))).people.map
        Person.images = [[⟨"QQQQ", "image/jpeg"⟩], []] ∧
    (handleContinueEditing
        (appReducer (appReducer initialState (.setPromptInfo .negativePromptField "no hats"))
          (.generateSuccess { image := some "data:image/jpeg;base64,QQQQ", text := none }))).generationHistory
      = (appReducer (appReducer initialState (.setPromptInfo .negativePromptField "no hats"))
          (.generateSuccess { image := some "data:image/jpeg;base64,QQQQ", text := none })).generationHistory ∧
    (handleContinueEditing
        (appReducer (appReducer initialState (.setPromptInfo .negativePromptField "no hats"))
          (.generateSuccess { image := some "data:image/jpeg;base64,QQQQ", text := none }))).prompt
      = (appReducer (appReducer initialState (.setPromptInfo .negativePromptField "no hats"))
          (.generateSuccess { image := some "data:image/jpeg;base64,QQQQ", text := none })).prompt :=
  (continue_editing_chain _ { image := some "data:image/jpeg;base64,QQQQ", text := none }
      "data:image/jpeg;base64,QQQQ" rfl rfl (by decide)).1 "QQQQ" "image/jpeg" (by decide)

end Stylist
